import Mathlib

/-
Shallow embedding of the jlox tree-walker front end
(the files tokens.rs, errors.rs, scanner.rs, parser.rs and syntax_tree.rs under
src/tree_walker, plus src/main.rs).

Modelling conventions:
* Rust `f64` is modelled by `F64`: an exact-rational carrier extended with the
  IEEE special values infinity, negative infinity and NaN.  Finite arithmetic
  is exact (binary64 rounding is abstracted away; every numeric constant that
  appears in the claims is exactly representable in binary64, where the two
  agree), signed zero is identified with zero, and the special-value rules
  (propagation of NaN, division of a nonzero finite number by zero giving a
  signed infinity, 0/0 giving NaN, NaN comparing unequal to everything) follow
  IEEE 754, which is what the Rust operators delegate to.
* A Rust `panic!` / `unwrap()` on `None` aborts the process; such an abort is
  modelled as a distinguished `fault`-style result (`Except.error` for the
  scanner, `POut.fault` for the parser) that is propagated and never caught.
* The diagnostics sink (lines written to the error stream by
  `errors::report`) is modelled as an explicit list of `Error` records
  threaded through the scanner and parser states; `reportLine` renders the
  single line that one `report` call writes.
* Rust strings are indexed by bytes while `Scanner` steps through chars; the
  two coincide on ASCII sources, which is all the claims use, and the model
  uses a `List Char` cursor throughout.
-/

namespace TreeWalker

/-- Model of Rust `f64`: exact rationals plus the IEEE special values. -/
inductive F64 where
  | finite (q : Rat)
  | inf
  | negInf
  | nan
deriving DecidableEq, Repr

namespace F64

/-- Negation (`-x` on `f64`). -/
def neg : F64 → F64
  | finite q => finite (-q)
  | inf => negInf
  | negInf => inf
  | nan => nan

/-- Addition (`l + r` on `f64`). -/
def add : F64 → F64 → F64
  | nan, _ => nan
  | _, nan => nan
  | inf, negInf => nan
  | negInf, inf => nan
  | inf, _ => inf
  | _, inf => inf
  | negInf, _ => negInf
  | _, negInf => negInf
  | finite a, finite b => finite (a + b)

/-- Subtraction (`l - r` on `f64`). -/
def sub (a b : F64) : F64 := add a (neg b)

/-- Multiplication (`l * r` on `f64`). -/
def mul : F64 → F64 → F64
  | nan, _ => nan
  | _, nan => nan
  | inf, inf => inf
  | inf, negInf => negInf
  | negInf, inf => negInf
  | negInf, negInf => inf
  | inf, finite b => if 0 < b then inf else if b < 0 then negInf else nan
  | finite a, inf => if 0 < a then inf else if a < 0 then negInf else nan
  | negInf, finite b => if 0 < b then negInf else if b < 0 then inf else nan
  | finite a, negInf => if 0 < a then negInf else if a < 0 then inf else nan
  | finite a, finite b => finite (a * b)

/-- Division (`l / r` on `f64`); a nonzero finite number divided by zero
yields a signed infinity and `0 / 0` yields NaN, never an error. -/
def div : F64 → F64 → F64
  | nan, _ => nan
  | _, nan => nan
  | inf, inf => nan
  | inf, negInf => nan
  | negInf, inf => nan
  | negInf, negInf => nan
  | inf, finite b => if b < 0 then negInf else inf
  | negInf, finite b => if b < 0 then inf else negInf
  | finite _, inf => finite 0
  | finite _, negInf => finite 0
  | finite a, finite b =>
    if b = 0 then (if 0 < a then inf else if a < 0 then negInf else nan)
    else finite (a / b)

/-- Strict order (`l < r` on `f64`); NaN compares false. -/
def lt : F64 → F64 → Bool
  | nan, _ => false
  | _, nan => false
  | negInf, negInf => false
  | negInf, _ => true
  | _, negInf => false
  | inf, _ => false
  | _, inf => true
  | finite a, finite b => decide (a < b)

/-- Equality test (`l == r` on `f64`); NaN compares false. -/
def beq : F64 → F64 → Bool
  | nan, _ => false
  | _, nan => false
  | inf, inf => true
  | negInf, negInf => true
  | finite a, finite b => decide (a = b)
  | _, _ => false

/-- Non-strict order (`l <= r` on `f64`). -/
def le (a b : F64) : Bool := lt a b || beq a b

/-- Strict order (`l > r` on `f64`). -/
def gt (a b : F64) : Bool := lt b a

/-- Non-strict order (`l >= r` on `f64`). -/
def ge (a b : F64) : Bool := le b a

end F64

/-- The digit character for `k < 10`. -/
def digitChar (k : Nat) : Char := Char.ofNat (Char.toNat '0' + k)

/-- Decimal expansion digits of the proper fraction `r / d`, up to `fuel`
places, stopping at an exact expansion (used by the display of `f64`). -/
def fracDigits : Nat → Nat → Nat → List Char
  | 0, _, _ => []
  | _ + 1, 0, _ => []
  | fuel + 1, r, d => digitChar (r * 10 / d) :: fracDigits fuel (r * 10 % d) d

/-- Display of an `f64` with Rust `Display` (`format!` with an empty format
spec): integral values print without a decimal point, non-integral finite
values print their decimal expansion (Rust prints the shortest
round-tripping decimal; the two agree on the exactly-representable values
this repository manipulates). -/
def f64Display : F64 → String
  | F64.finite q =>
    let sign := if q.num < 0 then "-" else ""
    let n := q.num.natAbs
    if q.den = 1 then sign ++ toString (n / q.den)
    else sign ++ toString (n / q.den) ++ "." ++ String.mk (fracDigits 17 (n % q.den) q.den)
  | F64.inf => "inf"
  | F64.negInf => "-inf"
  | F64.nan => "NaN"

/-- `TokenType` from src/tree_walker/tokens.rs (keywords prefixed with `kw`
where the Rust name is a Lean keyword, for uniformity on all of them). -/
inductive TokenType where
  | leftParen
  | rightParen
  | leftBrace
  | rightBrace
  | comma
  | dot
  | minus
  | plus
  | semicolon
  | colon
  | slash
  | star
  | question
  | bang
  | bangEqual
  | equal
  | equalEqual
  | greater
  | greaterEqual
  | less
  | lessEqual
  | identifier
  | string
  | number
  | kwAnd
  | kwClass
  | kwElse
  | kwFalse
  | kwFun
  | kwFor
  | kwIf
  | kwNil
  | kwOr
  | kwPrint
  | kwReturn
  | kwSuper
  | kwThis
  | kwTrue
  | kwVar
  | kwWhile
  | eof
deriving DecidableEq, Repr

/-- `LiteralType` from src/tree_walker/tokens.rs. -/
inductive LiteralType where
  | number (n : F64)
  | string (s : String)
  | bool (b : Bool)
  | nil
deriving DecidableEq, Repr

/-- The `Display` impl of `LiteralType`. -/
def LiteralType.display : LiteralType → String
  | .number n => f64Display n
  | .string s => s
  | .bool b => if b then "true" else "false"
  | .nil => "nil"

/-- `Token` from src/tree_walker/tokens.rs (field `type` is `r#type` in the
source; `line` is a `u64`, modelled as `Nat`). -/
structure Token where
  type : TokenType
  lexeme : String
  literal : Option LiteralType
  line : Nat
deriving DecidableEq, Repr

/-- `Error` from src/tree_walker/errors.rs. -/
structure Error where
  line : Nat
  message : String
  place : String
deriving DecidableEq, Repr

/-- The single line `errors::report` writes to the error stream: the
`eprintln!` format interpolates the line number, the place and the message
into `[line <N>] Error: <place>: <message>` — note the colon directly after
`Error`, before the place. -/
def reportLine (e : Error) : String :=
  "[line " ++ toString e.line ++ "] Error: " ++ e.place ++ ": " ++ e.message

/-- The `Error` records that one call of `errors::error(token, message)`
passes to `report`, in order: for an end-of-input token the `at the end`
record is reported and then (the `if` has no `else`) the `at '<lexeme>'`
record is reported as well; any other token reports only the latter. -/
def errorReports (t : Token) (message : String) : List Error :=
  (if t.type = TokenType.eof then
    [{ line := t.line, place := " at the end", message := message }]
  else []) ++
  [{ line := t.line, message := message,
     place := " at \x27" ++ t.lexeme ++ "\x27" }]

/-- The lines `errors::error(token, message)` writes to the error stream. -/
def errorLines (t : Token) (message : String) : List String :=
  (errorReports t message).map reportLine

/-- `RuntimeError` from src/tree_walker/errors.rs. -/
structure RuntimeError where
  token : Token
  message : String
deriving DecidableEq, Repr

/-- `Expr` from src/tree_walker/syntax_tree.rs, with the boxed `Ternary`,
`Binary`, `Unary`, `Grouping` and `Literal` structs flattened into one
recursive inductive (their fields appear in source order; `Literal` stores
`value : Option<LiteralType>`). -/
inductive Expr where
  | ternary (condition thenBranch elseBranch : Expr)
  | binary (left : Expr) (operator : Token) (right : Expr)
  | unary (operator : Token) (right : Expr)
  | grouping (expression : Expr)
  | literal (value : Option LiteralType)
deriving DecidableEq, Repr

/-- The `PrettyPrint` impls of src/tree_walker/syntax_tree.rs. -/
def prettyPrint : Expr → String
  | .ternary c t e =>
    "(ternary " ++ prettyPrint c ++ " ? " ++ prettyPrint t ++ " : " ++ prettyPrint e ++ ")"
  | .binary l op r => "(" ++ op.lexeme ++ " " ++ prettyPrint l ++ " " ++ prettyPrint r ++ ")"
  | .unary op r => "(" ++ op.lexeme ++ " " ++ prettyPrint r ++ ")"
  | .grouping e => "(group " ++ prettyPrint e ++ ")"
  | .literal (some v) => v.display
  | .literal none => "Nil"

/-- `Value` from src/tree_walker/syntax_tree.rs. -/
inductive Value where
  | nil
  | boolean (b : Bool)
  | number (n : F64)
  | string (s : String)
deriving DecidableEq, Repr

/-- `Value::is_truthy`. -/
def isTruthy : Value → Bool
  | .nil => false
  | .boolean b => b
  | _ => true

/-- `Value::variant_eq` (`std::mem::discriminant` comparison). -/
def variantEq : Value → Value → Bool
  | .nil, .nil => true
  | .boolean _, .boolean _ => true
  | .number _, .number _ => true
  | .string _, .string _ => true
  | _, _ => false

/-- The token that `Ternary::eval` attaches to its condition-type error
(built on the spot in the source, with line 0). -/
def questionToken : Token :=
  { type := TokenType.question, lexeme := "?", literal := none, line := 0 }

/-- Body of `Binary::eval` after both operands have been evaluated to the
values `left` and `right`. -/
def binaryEval (operator : Token) (left right : Value) : Except RuntimeError Value :=
  if variantEq left right = false then
    .error { token := operator, message := "Types don\x27t match in binary expression." }
  else
    match left, right with
    | .number l, .number r =>
      match operator.type with
      | .plus => .ok (.number (F64.add l r))
      | .minus => .ok (.number (F64.sub l r))
      | .slash => .ok (.number (F64.div l r))
      | .star => .ok (.number (F64.mul l r))
      | .greater => .ok (.boolean (F64.gt l r))
      | .greaterEqual => .ok (.boolean (F64.ge l r))
      | .less => .ok (.boolean (F64.lt l r))
      | .lessEqual => .ok (.boolean (F64.le l r))
      | .bangEqual => .ok (.boolean (!(F64.beq l r)))
      | .equalEqual => .ok (.boolean (F64.beq l r))
      | _ => .error { token := operator, message := "Invalid binary expression operator." }
    | .string l, .string r =>
      match operator.type with
      | .plus => .ok (.string (l ++ r))
      | _ => .error { token := operator, message := "Invalid binary expression operator." }
    | _, _ => .error { token := operator, message := "Invalid binary expression operator." }

/-- Body of `Unary::eval` after the operand has been evaluated to `right`. -/
def unaryEval (operator : Token) (right : Value) : Except RuntimeError Value :=
  match operator.type with
  | .bang => .ok (.boolean (!(isTruthy right)))
  | .minus =>
    match right with
    | .number n => .ok (.number (F64.neg n))
    | _ => .error { token := operator,
                    message := "Minus should only be used with the number type." }
  | _ => .error { token := operator, message := "Invalid operator in unary expression." }

/-- The `Eval` impls of src/tree_walker/syntax_tree.rs (`Expr::eval` and the
per-variant `eval` methods it dispatches to). -/
def evalExpr : Expr → Except RuntimeError Value
  | .ternary c t e =>
    match evalExpr c with
    | .error err => .error err
    | .ok (.boolean b) => if b then evalExpr t else evalExpr e
    | .ok _ =>
      .error { token := questionToken,
               message :=
                 "We shouldn\x27t be here... ternary condition didn\x27t returned a boolean." }
  | .binary l op r =>
    match evalExpr l with
    | .error err => .error err
    | .ok leftV =>
      match evalExpr r with
      | .error err => .error err
      | .ok rightV => binaryEval op leftV rightV
  | .unary op r =>
    match evalExpr r with
    | .error err => .error err
    | .ok rightV => unaryEval op rightV
  | .grouping e => evalExpr e
  | .literal v =>
    .ok (match v.getD LiteralType.nil with
      | .number n => .number n
      | .string s => .string s
      | .bool b => .boolean b
      | .nil => .nil)

/-- State of `Scanner` from src/tree_walker/scanner.rs, with the diagnostics
sink (`errors::report` calls) made explicit as `errs`. -/
structure ScanSt where
  source : List Char
  tokens : List Token
  start : Nat
  current : Nat
  line : Nat
  errs : List Error
deriving DecidableEq, Repr

/-- The keyword table built in `Scanner::new`. -/
def keywords : List (String × TokenType) :=
  [("and", TokenType.kwAnd), ("class", TokenType.kwClass), ("else", TokenType.kwElse),
   ("false", TokenType.kwFalse), ("for", TokenType.kwFor), ("fun", TokenType.kwFun),
   ("if", TokenType.kwIf), ("nil", TokenType.kwNil), ("or", TokenType.kwOr),
   ("print", TokenType.kwPrint), ("return", TokenType.kwReturn),
   ("super", TokenType.kwSuper), ("this", TokenType.kwThis), ("true", TokenType.kwTrue),
   ("var", TokenType.kwVar), ("while", TokenType.kwWhile)]

namespace ScanSt

/-- `Scanner::is_at_end`. -/
def isAtEnd (s : ScanSt) : Bool := decide (s.source.length ≤ s.current)

/-- `Scanner::advance`; `Except.error` models the `unwrap()` panic when the
cursor is past the end of the source. -/
def advance (s : ScanSt) : Except ScanSt (Char × ScanSt) :=
  match s.source.get? s.current with
  | some c => .ok (c, { s with current := s.current + 1 })
  | none => .error s

/-- The lexeme `self.source[self.start..self.current]` (chars; equal to the
Rust byte slice on the ASCII sources considered). -/
def lexeme (s : ScanSt) : String :=
  String.mk ((s.source.drop s.start).take (s.current - s.start))

/-- `Scanner::add_token`. -/
def addToken (s : ScanSt) (t : TokenType) (l : Option LiteralType) : ScanSt :=
  { s with tokens := s.tokens ++
      [{ type := t, lexeme := s.lexeme, line := s.line, literal := l }] }

/-- `Scanner::next_matches`. -/
def nextMatches (s : ScanSt) (expected : Char) : Bool × ScanSt :=
  if s.isAtEnd then (false, s)
  else if s.source.get? s.current ≠ some expected then (false, s)
  else (true, { s with current := s.current + 1 })

/-- `Scanner::peek` before its `unwrap` (`none` at the call sites models the
panic on a cursor past the end). -/
def peek (s : ScanSt) : Option Char := s.source.get? s.current

/-- `Scanner::peek_next` (`unwrap_or('\0')`). -/
def peekNext (s : ScanSt) : Char := (s.source.get? (s.current + 1)).getD '\x00'

/-- Push one reported `Error` onto the diagnostics sink. -/
def report (s : ScanSt) (e : Error) : ScanSt := { s with errs := s.errs ++ [e] }

end ScanSt

/-- `Scanner::is_digit`. -/
def isDigit (c : Char) : Bool := c.isDigit

/-- `Scanner::is_alpha`. -/
def isAlpha (c : Char) : Bool := c.isAlpha || c = '_'

/-- `Scanner::is_alpha_numeric`. -/
def isAlphaNumeric (c : Char) : Bool := isDigit c || isAlpha c

/-- The loop of the line-comment arm of `Scanner::scan_token`:
`while self.peek() != '\n' && !self.is_at_end()`.  The source calls `peek`
(which unwraps) before checking `is_at_end`, so a line comment that reaches
the end of the source without a newline aborts; the fuel branch is
unreachable because every iteration advances the cursor. -/
def lineCommentLoop : Nat → ScanSt → Except ScanSt ScanSt
  | 0, s => .error s
  | fuel + 1, s =>
    match s.peek with
    | none => .error s
    | some c =>
      if c ≠ '\n' && !s.isAtEnd then
        match s.advance with
        | .error s => .error s
        | .ok (_, s) => lineCommentLoop fuel s
      else .ok s

/-- The loop of the block-comment arm of `Scanner::scan_token`, followed by
the two `advance` calls that skip the closing `*/` (each of which aborts at
the end of the source, as the source's `unwrap` does on an unterminated
block comment). -/
def blockCommentLoop : Nat → ScanSt → Except ScanSt ScanSt
  | 0, s => .error s
  | fuel + 1, s =>
    if s.isAtEnd || (s.peek = some '*' && s.peekNext = '/') then
      match s.advance with
      | .error s => .error s
      | .ok (_, s) =>
        match s.advance with
        | .error s => .error s
        | .ok (_, s) => .ok s
    else
      match s.advance with
      | .error s => .error s
      | .ok (_, s) => blockCommentLoop fuel s

/-- The consuming loop of `Scanner::string`:
`while !self.is_at_end() && self.peek() != '"'`, bumping the line counter on
newlines. -/
def stringLoop : Nat → ScanSt → Except ScanSt ScanSt
  | 0, s => .error s
  | fuel + 1, s =>
    if !s.isAtEnd && s.peek ≠ some '\x22' then
      let s := if s.peek = some '\n' then { s with line := s.line + 1 } else s
      match s.advance with
      | .error s => .error s
      | .ok (_, s) => stringLoop fuel s
    else .ok s

/-- `Scanner::string`: consume to the closing quote; report an unterminated
string at the end of the source, and then (the source has no early return)
`advance` past the closing quote — which aborts when the error was just
reported, since the cursor is already at the end. -/
def stringFn (fuel : Nat) (s : ScanSt) : Except ScanSt ScanSt := do
  let s ← stringLoop fuel s
  let s :=
    if s.isAtEnd then
      s.report { line := s.line, message := "Unterminated string", place := "" }
    else s
  let (_, s) ← s.advance
  let value := String.mk ((s.source.drop (s.start + 1)).take (s.current - 1 - (s.start + 1)))
  return s.addToken TokenType.string (some (LiteralType.string value))

/-- A digit-consuming loop of `Scanner::number`:
`while !self.is_at_end() && Scanner::is_digit(self.peek())`. -/
def digitsLoop : Nat → ScanSt → ScanSt
  | 0, s => s
  | fuel + 1, s =>
    if !s.isAtEnd && (s.peek.map isDigit).getD false then
      match s.advance with
      | .error s => s
      | .ok (_, s) => digitsLoop fuel s
    else s

/-- Numeric value of a run of decimal digit characters. -/
def digitsVal (l : List Char) : Nat :=
  l.foldl (fun a c => a * 10 + (c.toNat - Char.toNat '0')) 0

/-- The value `lexeme.parse::<f64>().unwrap()` of a scanned number lexeme
(digits, optionally a point and digits): its exact decimal value, which is
what the Rust parse returns on the exactly-representable constants used
here. -/
def parseNumberLexeme (l : List Char) : F64 :=
  match l.span (fun c => c ≠ '.') with
  | (ip, []) => F64.finite (digitsVal ip)
  | (ip, _ :: fp) =>
    F64.finite ((digitsVal ip : Rat) + (digitsVal fp : Rat) / ((10 : Rat) ^ fp.length))

/-- `Scanner::number`. -/
def numberFn (fuel : Nat) (s : ScanSt) : ScanSt :=
  let s := digitsLoop fuel s
  let s :=
    if !s.isAtEnd && s.peek = some '.' && isDigit s.peekNext then
      match s.advance with
      | .error s => s
      | .ok (_, s) => digitsLoop fuel s
    else s
  let s := digitsLoop fuel s
  let lex := (s.source.drop s.start).take (s.current - s.start)
  s.addToken TokenType.number (some (LiteralType.number (parseNumberLexeme lex)))

/-- The loop of `Scanner::identifier`:
`while Scanner::is_alpha_numeric(self.peek())` — the `peek` is not guarded
by `is_at_end`, so an identifier that reaches the end of the source aborts
on the unwrap. -/
def identifierLoop : Nat → ScanSt → Except ScanSt ScanSt
  | 0, s => .error s
  | fuel + 1, s =>
    match s.peek with
    | none => .error s
    | some c =>
      if isAlphaNumeric c then
        match s.advance with
        | .error s => .error s
        | .ok (_, s) => identifierLoop fuel s
      else .ok s

/-- `Scanner::identifier`. -/
def identifierFn (fuel : Nat) (s : ScanSt) : Except ScanSt ScanSt := do
  let s ← identifierLoop fuel s
  let text := s.lexeme
  let t := ((keywords.lookup text).getD TokenType.identifier)
  return s.addToken t none

/-- `Scanner::scan_token`: consume one character and dispatch.  There is no
arm for `?`, so a question mark falls to the unexpected-character report. -/
def scanToken (s : ScanSt) : Except ScanSt ScanSt := do
  let fuel := s.source.length + 1
  let (c, s) ← s.advance
  match c with
  | '(' => return s.addToken TokenType.leftParen none
  | ')' => return s.addToken TokenType.rightParen none
  | '\x7b' => return s.addToken TokenType.leftBrace none
  | '\x7d' => return s.addToken TokenType.rightBrace none
  | ',' => return s.addToken TokenType.comma none
  | '.' => return s.addToken TokenType.dot none
  | '-' => return s.addToken TokenType.minus none
  | '+' => return s.addToken TokenType.plus none
  | ';' => return s.addToken TokenType.semicolon none
  | ':' => return s.addToken TokenType.colon none
  | '*' => return s.addToken TokenType.star none
  | '!' =>
    let (m, s) := s.nextMatches '='
    return if m then s.addToken TokenType.bangEqual none
    else s.addToken TokenType.bang none
  | '=' =>
    let (m, s) := s.nextMatches '='
    return if m then s.addToken TokenType.equalEqual none
    else s.addToken TokenType.equal none
  | '>' =>
    let (m, s) := s.nextMatches '='
    return if m then s.addToken TokenType.greaterEqual none
    else s.addToken TokenType.greater none
  | '<' =>
    let (m, s) := s.nextMatches '='
    return if m then s.addToken TokenType.lessEqual none
    else s.addToken TokenType.less none
  | '/' =>
    let (m, s) := s.nextMatches '/'
    if m then lineCommentLoop fuel s
    else
      let (m, s) := s.nextMatches '*'
      if m then blockCommentLoop fuel s
      else return s.addToken TokenType.slash none
  | '\x22' => stringFn fuel s
  | ' ' => return s
  | '\r' => return s
  | '\t' => return s
  | '\n' => return { s with line := s.line + 1 }
  | c =>
    if isDigit c then return numberFn fuel s
    else if isAlpha c then identifierFn fuel s
    else
      return s.report (Error.mk s.line ("Unexpected character: " ++ String.mk [c]) "")

/-- The `while !self.is_at_end()` loop of `Scanner::scan_tokens`; the fuel
branch is unreachable because `scan_token` always advances the cursor. -/
def scanLoop : Nat → ScanSt → Except ScanSt ScanSt
  | 0, s => .error s
  | fuel + 1, s =>
    if s.isAtEnd then .ok s
    else
      match scanToken { s with start := s.current } with
      | .error s => .error s
      | .ok s => scanLoop fuel s

/-- `Scanner::scan_tokens` on a fresh `Scanner::new(source)`: the token
sequence (with the end-of-input marker appended) and the reported errors on
success, or `Except.error` with the errors reported up to the abort when the
scan panics. -/
def scanTokens (source : String) : Except (List Error) (List Token × List Error) :=
  let chars := source.toList
  let s0 : ScanSt :=
    { source := chars, tokens := [], start := 0, current := 0, line := 1, errs := [] }
  match scanLoop (chars.length + 1) s0 with
  | .error s => .error s.errs
  | .ok s =>
    (.ok (s.tokens ++
      [{ type := TokenType.eof, lexeme := "", line := s.line, literal := none }], s.errs))

/-- `ParseError` from src/tree_walker/parser.rs. -/
structure ParseError where
  token : Token
  message : String
deriving DecidableEq, Repr

/-- State of `Parser` from src/tree_walker/parser.rs, with the diagnostics
sink (`errors::error` calls issued by `Parser::error`) made explicit as
`reported`. -/
structure PState where
  tokens : List Token
  current : Nat
  reported : List Error
deriving DecidableEq, Repr

/-- Outcome of a parser step: a value, a returned `Err(ParseError)`, or an
aborting `panic!` (`fault`), each with the state at that point. -/
inductive POut (α : Type) where
  | ok (a : α) (s : PState)
  | perr (e : ParseError) (s : PState)
  | fault (s : PState)
deriving DecidableEq, Repr

/-- `Parser::peek` before its `unwrap` (`none` at the call sites models the
panic on a cursor past the end of the token buffer). -/
def pPeek (s : PState) : Option Token := s.tokens.get? s.current

/-- `Parser::previous`: the token before the cursor, or the source's
`ParseError` with a placeholder `Nil` token when there is none.  (On
`current == 0` the Rust `usize` subtraction would overflow; Lean's truncated
subtraction reads index 0 instead — `previous` is only reached after an
`advance`, where the two agree.) -/
def pPrevious (s : PState) : Except ParseError Token :=
  match s.tokens.get? (s.current - 1) with
  | none =>
    .error { token := { type := TokenType.kwNil, lexeme := "", literal := none, line := 0 },
             message := "unexpected absense of token" }
  | some t => .ok t

/-- `Parser::advance`: step the cursor unless at the end, then `previous`. -/
def pAdvance (s : PState) : POut Token :=
  match pPeek s with
  | none => .fault s
  | some tk =>
    let s := if tk.type = TokenType.eof then s else { s with current := s.current + 1 }
    match pPrevious s with
    | .error e => .perr e s
    | .ok t => .ok t s

/-- `Parser::check`: `false` at the end of input, else a type comparison of
the current token; `none` models the panic of the unguarded `peek`. -/
def pCheck (t : TokenType) (s : PState) : Option Bool :=
  match pPeek s with
  | none => none
  | some tk => some (if tk.type = TokenType.eof then false else decide (tk.type = t))

/-- `Parser::match`: try each type in order; on the first `check` success,
advance (the returned `Result` is discarded with `let _ =`, the cursor move
persists) and answer `true`. -/
def pMatch (types : List TokenType) (s : PState) : POut Bool :=
  match types with
  | [] => .ok false s
  | t :: rest =>
    match pCheck t s with
    | none => .fault s
    | some true =>
      match pAdvance s with
      | .ok _ s => .ok true s
      | .perr _ s => .ok true s
      | .fault s => .fault s
    | some false => pMatch rest s

/-- `Parser::error`: report through the diagnostics sink via
`errors::error(token, message)` and build the `ParseError`. -/
def pError (tk : Token) (message : String) (s : PState) : ParseError × PState :=
  ({ token := tk, message := message },
   { s with reported := s.reported ++ errorReports tk message })

/-- `Parser::consume`: advance past the expected token type, else report the
error through the sink and `panic!` (the source does not return the
structured error on this path). -/
def consume (t : TokenType) (message : String) (s : PState) : POut Token :=
  match pCheck t s with
  | none => .fault s
  | some true => pAdvance s
  | some false =>
    match pPeek s with
    | none => .fault s
    | some tk =>
      let (_, s) := pError tk message s
      .fault s

mutual

/-- `Parser::expression`. -/
def expression : Nat → PState → POut Expr
  | 0, s => .fault s
  | fuel + 1, s => comma fuel s

/-- `Parser::comma`. -/
def comma : Nat → PState → POut Expr
  | 0, s => .fault s
  | fuel + 1, s =>
    match ternary fuel s with
    | .ok e s => commaLoop fuel e s
    | r => r

/-- The `while self.match(Comma)` loop of `Parser::comma`. -/
def commaLoop : Nat → Expr → PState → POut Expr
  | 0, _, s => .fault s
  | fuel + 1, e, s =>
    match pMatch [TokenType.comma] s with
    | .fault s => .fault s
    | .perr err s => .perr err s
    | .ok false s => .ok e s
    | .ok true s =>
      match pPrevious s with
      | .error err => .perr err s
      | .ok op =>
        match ternary fuel s with
        | .ok right s => commaLoop fuel (Expr.binary e op right) s
        | r => r

/-- `Parser::ternary`. -/
def ternary : Nat → PState → POut Expr
  | 0, s => .fault s
  | fuel + 1, s =>
    match equality fuel s with
    | .ok e s => ternaryLoop fuel e s
    | r => r

/-- The `while self.match(Question)` loop of `Parser::ternary`: the then
branch and the else branch are each parsed by re-entering `ternary`; the
`consume(Colon, ...)` result is discarded with `let _ =` (a panic still
aborts). -/
def ternaryLoop : Nat → Expr → PState → POut Expr
  | 0, _, s => .fault s
  | fuel + 1, e, s =>
    match pMatch [TokenType.question] s with
    | .fault s => .fault s
    | .perr err s => .perr err s
    | .ok false s => .ok e s
    | .ok true s =>
      match ternary fuel s with
      | .ok thenB s =>
        match consume TokenType.colon "Expect \x27:\x27 after ternary condition." s with
        | .fault s => .fault s
        | .ok _ s | .perr _ s =>
          match ternary fuel s with
          | .ok elseB s => ternaryLoop fuel (Expr.ternary e thenB elseB) s
          | r => r
      | r => r

/-- `Parser::equality`. -/
def equality : Nat → PState → POut Expr
  | 0, s => .fault s
  | fuel + 1, s =>
    match comparison fuel s with
    | .ok e s => equalityLoop fuel e s
    | r => r

/-- The `while self.match(BangEqual, EqualEqual)` loop of `Parser::equality`. -/
def equalityLoop : Nat → Expr → PState → POut Expr
  | 0, _, s => .fault s
  | fuel + 1, e, s =>
    match pMatch [TokenType.bangEqual, TokenType.equalEqual] s with
    | .fault s => .fault s
    | .perr err s => .perr err s
    | .ok false s => .ok e s
    | .ok true s =>
      match pPrevious s with
      | .error err => .perr err s
      | .ok op =>
        match comparison fuel s with
        | .ok right s => equalityLoop fuel (Expr.binary e op right) s
        | r => r

/-- `Parser::comparison`. -/
def comparison : Nat → PState → POut Expr
  | 0, s => .fault s
  | fuel + 1, s =>
    match term fuel s with
    | .ok e s => comparisonLoop fuel e s
    | r => r

/-- The comparison-operator loop of `Parser::comparison`. -/
def comparisonLoop : Nat → Expr → PState → POut Expr
  | 0, _, s => .fault s
  | fuel + 1, e, s =>
    match pMatch [TokenType.greater, TokenType.greaterEqual,
                  TokenType.less, TokenType.lessEqual] s with
    | .fault s => .fault s
    | .perr err s => .perr err s
    | .ok false s => .ok e s
    | .ok true s =>
      match pPrevious s with
      | .error err => .perr err s
      | .ok op =>
        match term fuel s with
        | .ok right s => comparisonLoop fuel (Expr.binary e op right) s
        | r => r

/-- `Parser::term`. -/
def term : Nat → PState → POut Expr
  | 0, s => .fault s
  | fuel + 1, s =>
    match factor fuel s with
    | .ok e s => termLoop fuel e s
    | r => r

/-- The `while self.match(Minus, Plus)` loop of `Parser::term`. -/
def termLoop : Nat → Expr → PState → POut Expr
  | 0, _, s => .fault s
  | fuel + 1, e, s =>
    match pMatch [TokenType.minus, TokenType.plus] s with
    | .fault s => .fault s
    | .perr err s => .perr err s
    | .ok false s => .ok e s
    | .ok true s =>
      match pPrevious s with
      | .error err => .perr err s
      | .ok op =>
        match factor fuel s with
        | .ok right s => termLoop fuel (Expr.binary e op right) s
        | r => r

/-- `Parser::factor`. -/
def factor : Nat → PState → POut Expr
  | 0, s => .fault s
  | fuel + 1, s =>
    match unary fuel s with
    | .ok e s => factorLoop fuel e s
    | r => r

/-- The `while self.match(Slash, Star)` loop of `Parser::factor`. -/
def factorLoop : Nat → Expr → PState → POut Expr
  | 0, _, s => .fault s
  | fuel + 1, e, s =>
    match pMatch [TokenType.slash, TokenType.star] s with
    | .fault s => .fault s
    | .perr err s => .perr err s
    | .ok false s => .ok e s
    | .ok true s =>
      match pPrevious s with
      | .error err => .perr err s
      | .ok op =>
        match unary fuel s with
        | .ok right s => factorLoop fuel (Expr.binary e op right) s
        | r => r

/-- `Parser::unary`. -/
def unary : Nat → PState → POut Expr
  | 0, s => .fault s
  | fuel + 1, s =>
    match pMatch [TokenType.bang, TokenType.minus] s with
    | .fault s => .fault s
    | .perr err s => .perr err s
    | .ok true s =>
      match pPrevious s with
      | .error err => .perr err s
      | .ok op =>
        match unary fuel s with
        | .ok right s => .ok (Expr.unary op right) s
        | r => r
    | .ok false s => primary fuel s

/-- `Parser::primary`: literal keywords, number/string literals (whose
stored literal is unwrapped — a missing one would abort), a parenthesized
expression requiring `)` via `consume`, or the reported
`expect expression` error. -/
def primary : Nat → PState → POut Expr
  | 0, s => .fault s
  | fuel + 1, s =>
    match pMatch [TokenType.kwFalse] s with
    | .fault s => .fault s
    | .perr err s => .perr err s
    | .ok true s => .ok (Expr.literal (some (LiteralType.bool false))) s
    | .ok false s =>
      match pMatch [TokenType.kwTrue] s with
      | .fault s => .fault s
      | .perr err s => .perr err s
      | .ok true s => .ok (Expr.literal (some (LiteralType.bool true))) s
      | .ok false s =>
        match pMatch [TokenType.kwNil] s with
        | .fault s => .fault s
        | .perr err s => .perr err s
        | .ok true s => .ok (Expr.literal (some LiteralType.nil)) s
        | .ok false s =>
          match pMatch [TokenType.number, TokenType.string] s with
          | .fault s => .fault s
          | .perr err s => .perr err s
          | .ok true s =>
            match pPrevious s with
            | .error err => .perr err s
            | .ok prev =>
              match prev.literal with
              | none => .fault s
              | some lit => .ok (Expr.literal (some lit)) s
          | .ok false s =>
            match pMatch [TokenType.leftParen] s with
            | .fault s => .fault s
            | .perr err s => .perr err s
            | .ok true s =>
              match expression fuel s with
              | .ok e s =>
                match consume TokenType.rightParen "Expect \x27)\x27 after expression" s with
                | .fault s => .fault s
                | .perr err s => .perr err s
                | .ok _ s => .ok (Expr.grouping e) s
              | r => r
            | .ok false s =>
              match pPeek s with
              | none => .fault s
              | some tk =>
                let (e, s) := pError tk "expect expression" s
                .perr e s

end

/-- Outcome of `Parser::parse` as observed by the caller: a tree (`Ok`
mapped to `Some`), no tree (`Err` mapped to `None`), or a process-aborting
panic. -/
inductive ParseResult where
  | tree (e : Expr)
  | noTree
  | fault
deriving DecidableEq, Repr

/-- Fuel that dominates the recursion depth of the descent on the given
token buffer (each of the nine levels spends one unit per step, and every
cycle through `primary` or a loop consumes a token). -/
def parseFuel (ts : List Token) : Nat := 16 * ts.length + 16

/-- `Parser::new(tokens)` followed by `Parser::parse`, also yielding the
diagnostics reported along the way. -/
def parseTokens (ts : List Token) : ParseResult × List Error :=
  match expression (parseFuel ts) { tokens := ts, current := 0, reported := [] } with
  | .ok e s => (ParseResult.tree e, s.reported)
  | .perr _ s => (ParseResult.noTree, s.reported)
  | .fault s => (ParseResult.fault, s.reported)

/-- The token sequence the scanner yields for a source, when scanning does
not abort. -/
def tokensOf (source : String) : List Token :=
  match scanTokens source with
  | .ok (ts, _) => ts
  | .error _ => []

/-- The end-of-input marker token on line 1, as the scanner emits it. -/
def eofTok : Token := { type := TokenType.eof, lexeme := "", literal := none, line := 1 }

/-- A `?` token (concrete test fixture). -/
def qTok : Token := { type := TokenType.question, lexeme := "?", literal := none, line := 1 }

/-- A `:` token (concrete test fixture). -/
def colonTok : Token := { type := TokenType.colon, lexeme := ":", literal := none, line := 1 }

/-- A `+` token (concrete test fixture). -/
def plusTok : Token := { type := TokenType.plus, lexeme := "+", literal := none, line := 1 }

/-- A `*` token (concrete test fixture). -/
def starTok : Token := { type := TokenType.star, lexeme := "*", literal := none, line := 1 }

/-- An `==` token (concrete test fixture). -/
def eqeqTok : Token :=
  { type := TokenType.equalEqual, lexeme := "==", literal := none, line := 1 }

/-- A `!` token (concrete test fixture). -/
def bangTok : Token := { type := TokenType.bang, lexeme := "!", literal := none, line := 1 }

/-- A number token for the value `n` (concrete test fixture). -/
def numTok (n : Nat) : Token :=
  { type := TokenType.number, lexeme := toString n,
    literal := some (LiteralType.number (F64.finite n)), line := 1 }

/-- A number literal leaf for the value `n`. -/
def numLit (n : Nat) : Expr := Expr.literal (some (LiteralType.number (F64.finite n)))

/-- A string literal leaf. -/
def strLit (s : String) : Expr := Expr.literal (some (LiteralType.string s))

/-- A boolean literal leaf. -/
def boolLit (b : Bool) : Expr := Expr.literal (some (LiteralType.bool b))

/-- The diagnostic-line format the specification describes:
`[line <N>] Error<place>: <message>`. -/
def specFormatLine (line : Nat) (place message : String) : String :=
  "[line " ++ toString line ++ "] Error" ++ place ++ ": " ++ message

/-- The diagnostic-line format the code emits, with a colon between `Error`
and the place: `[line <N>] Error: <place>: <message>`. -/
def amendedFormatLine (line : Nat) (place message : String) : String :=
  "[line " ++ toString line ++ "] Error: " ++ place ++ ": " ++ message

/-- Claim C1: scanning a double quote followed by characters and no closing
quote reports exactly one lexical error ("Unterminated string", empty place,
line 1) and then aborts: `Scanner::string` has no early return after the
report, so the following `advance` unwraps `None` at the end of the source.
The scan therefore faults instead of appending the end-of-input marker, so
the claim's non-faulting behavior is contradicted while its expectation of a
single reported error is met. -/
theorem scan_unterminated_string_faults :
    scanTokens "\x22abc" =
      Except.error [{ line := 1, message := "Unterminated string", place := "" }] := rfl

/-- Claim C2, counterexample: parsing the token sequence of `(1` — a
parenthesized sub-expression with no closing parenthesis — does report the
`Expect \x27)\x27 after expression` diagnostic through the sink (twice, the
offending token being the end marker), but the parse then faults
(`Parser::consume` panics) instead of returning control with no tree, so
the claimed abort-without-faulting behavior is false. -/
theorem parse_missing_paren_faults :
    parseTokens (tokensOf "(1") =
      (ParseResult.fault,
       [{ line := 1, message := "Expect \x27)\x27 after expression", place := " at the end" },
        { line := 1, message := "Expect \x27)\x27 after expression", place := " at \x27\x27" }]) ∧
    ParseResult.fault ≠ ParseResult.noTree := by
  exact ⟨rfl, by decide⟩

/-- Claim C2, amended: whenever `Parser::consume` is at a token that does
not match the expected type (or at the end marker), it builds the
structured parse error for that token and message, reports it through the
diagnostics sink, and then raises an unrecoverable fault (`panic!`), so the
caller never receives a tree because the process aborts. -/
theorem consume_unmatched_reports_then_faults (s : PState) (t : TokenType)
    (message : String) (tk : Token) (hpeek : pPeek s = some tk)
    (hmiss : tk.type = TokenType.eof ∨ tk.type ≠ t) :
    consume t message s =
      POut.fault { s with reported := s.reported ++ errorReports tk message } := by
  have hfalse : (if tk.type = TokenType.eof then false else decide (tk.type = t)) = false := by
    rcases hmiss with h | h
    · simp [h]
    · by_cases he : tk.type = TokenType.eof <;> simp [he, h]
  simp [consume, pCheck, hpeek, hfalse, pError]

/-- Witness for the amended claim C2: the concrete `consume` of a closing
parenthesis while the parser sits at the end marker. -/
theorem consume_unmatched_reports_then_faults_witness :
    pPeek { tokens := [eofTok], current := 0, reported := [] } = some eofTok ∧
    consume TokenType.rightParen "Expect \x27)\x27 after expression"
        { tokens := [eofTok], current := 0, reported := [] } =
      POut.fault { tokens := [eofTok], current := 0,
                   reported := [] ++ errorReports eofTok "Expect \x27)\x27 after expression" } :=
  ⟨rfl, consume_unmatched_reports_then_faults _ _ _ _ rfl (Or.inl rfl)⟩

/-- Claim C3: parsing the token sequence of `1?2:3?4:5` (numeric literals as
the operands of `a?b:c?d:e`) yields the right-associated
`Ternary(1, 2, Ternary(3, 4, 5))` with no diagnostics, and that tree is not
the left-associated `Ternary(Ternary(1,2,3), 4, 5)`. -/
theorem ternary_parse_right_associative :
    parseTokens [numTok 1, qTok, numTok 2, colonTok, numTok 3, qTok, numTok 4,
                 colonTok, numTok 5, eofTok] =
      (ParseResult.tree
        (Expr.ternary (numLit 1) (numLit 2)
          (Expr.ternary (numLit 3) (numLit 4) (numLit 5))), []) ∧
    Expr.ternary (numLit 1) (numLit 2) (Expr.ternary (numLit 3) (numLit 4) (numLit 5)) ≠
      Expr.ternary (Expr.ternary (numLit 1) (numLit 2) (numLit 3)) (numLit 4) (numLit 5) := by
  exact ⟨rfl, by decide⟩

/-- Claim C4: when the two operands of a `Binary` node evaluate to values of
different variants, evaluation fails with the types-don\x27t-match
`RuntimeError` carrying the node\x27s operator token; and a `Binary`
evaluation succeeds only when both operands evaluate to the same variant
and the operator is one the evaluator defines for it (any of the ten
number operators on two Numbers, or `+` on two Strings). -/
theorem binary_type_mismatch_eval :
    (∀ (l r : Expr) (op : Token) (vl vr : Value),
      evalExpr l = .ok vl → evalExpr r = .ok vr → variantEq vl vr = false →
      evalExpr (Expr.binary l op r) =
        .error { token := op, message := "Types don\x27t match in binary expression." }) ∧
    (∀ (l r : Expr) (op : Token) (v : Value),
      evalExpr (Expr.binary l op r) = .ok v →
      ∃ vl vr, evalExpr l = .ok vl ∧ evalExpr r = .ok vr ∧ variantEq vl vr = true ∧
        ((∃ a b, vl = Value.number a ∧ vr = Value.number b ∧
            op.type ∈ [TokenType.plus, TokenType.minus, TokenType.slash, TokenType.star,
                       TokenType.greater, TokenType.greaterEqual, TokenType.less,
                       TokenType.lessEqual, TokenType.bangEqual, TokenType.equalEqual]) ∨
         (∃ a b, vl = Value.string a ∧ vr = Value.string b ∧
            op.type = TokenType.plus))) := by
  constructor
  · intro l r op vl vr hl hr hne
    simp [evalExpr, hl, hr, binaryEval, hne]
  · intro l r op v h
    cases hl : evalExpr l with
    | error e =>
      rw [show evalExpr (Expr.binary l op r) = Except.error e from by
            simp [evalExpr, hl]] at h
      exact absurd h (by simp)
    | ok vl =>
      cases hr : evalExpr r with
      | error e =>
        rw [show evalExpr (Expr.binary l op r) = Except.error e from by
              simp [evalExpr, hl, hr]] at h
        exact absurd h (by simp)
      | ok vr =>
        rw [show evalExpr (Expr.binary l op r) = binaryEval op vl vr from by
              simp [evalExpr, hl, hr]] at h
        unfold binaryEval at h
        by_cases hv : variantEq vl vr = false
        · simp [hv] at h
        · have hvt : variantEq vl vr = true := by
            revert hv; cases variantEq vl vr <;> simp
          rw [if_neg hv] at h
          refine ⟨vl, vr, rfl, rfl, hvt, ?_⟩
          cases vl <;> cases vr <;> simp_all [variantEq] <;>
            (cases hop : op.type <;> simp_all)

/-- Witness for claim C4: the evaluation of `1 + "a"`. -/
theorem binary_type_mismatch_eval_witness :
    variantEq (Value.number (F64.finite 1)) (Value.string "a") = false ∧
    evalExpr (Expr.binary (numLit 1) plusTok (strLit "a")) =
      .error { token := plusTok, message := "Types don\x27t match in binary expression." } :=
  ⟨by decide, binary_type_mismatch_eval.1 _ _ _ _ _ rfl rfl (by decide)⟩

/-- Claim C5: on two Number operands `+ - * /` evaluate to the Number given
by the corresponding `f64` operation (with division by zero yielding the
model\x27s infinity/NaN, never an error) and the six comparisons evaluate
to the Boolean of the native numeric comparison; on two String operands `+`
evaluates to the concatenation, with `"foo" + "bar"` giving
`String("foobar")`. -/
theorem binary_number_string_ops :
    (∀ (l r : Expr) (op : Token) (a b : F64),
      evalExpr l = .ok (.number a) → evalExpr r = .ok (.number b) →
      (op.type = TokenType.plus →
        evalExpr (Expr.binary l op r) = .ok (.number (F64.add a b))) ∧
      (op.type = TokenType.minus →
        evalExpr (Expr.binary l op r) = .ok (.number (F64.sub a b))) ∧
      (op.type = TokenType.star →
        evalExpr (Expr.binary l op r) = .ok (.number (F64.mul a b))) ∧
      (op.type = TokenType.slash →
        evalExpr (Expr.binary l op r) = .ok (.number (F64.div a b))) ∧
      (op.type = TokenType.greater →
        evalExpr (Expr.binary l op r) = .ok (.boolean (F64.gt a b))) ∧
      (op.type = TokenType.greaterEqual →
        evalExpr (Expr.binary l op r) = .ok (.boolean (F64.ge a b))) ∧
      (op.type = TokenType.less →
        evalExpr (Expr.binary l op r) = .ok (.boolean (F64.lt a b))) ∧
      (op.type = TokenType.lessEqual →
        evalExpr (Expr.binary l op r) = .ok (.boolean (F64.le a b))) ∧
      (op.type = TokenType.equalEqual →
        evalExpr (Expr.binary l op r) = .ok (.boolean (F64.beq a b))) ∧
      (op.type = TokenType.bangEqual →
        evalExpr (Expr.binary l op r) = .ok (.boolean (!(F64.beq a b))))) ∧
    (∀ q : Rat, F64.div (F64.finite q) (F64.finite 0) =
      if 0 < q then F64.inf else if q < 0 then F64.negInf else F64.nan) ∧
    (∀ (l r : Expr) (op : Token) (a b : String),
      evalExpr l = .ok (.string a) → evalExpr r = .ok (.string b) →
      op.type = TokenType.plus →
      evalExpr (Expr.binary l op r) = .ok (.string (a ++ b))) ∧
    evalExpr (Expr.binary (strLit "foo") plusTok (strLit "bar")) =
      .ok (.string "foobar") := by
  refine ⟨?_, ?_, ?_, rfl⟩
  · intro l r op a b hl hr
    refine ⟨?_, ?_, ?_, ?_, ?_, ?_, ?_, ?_, ?_, ?_⟩ <;>
      (intro hop; simp [evalExpr, hl, hr, binaryEval, variantEq, hop])
  · intro q
    simp [F64.div]
  · intro l r op a b hl hr hop
    simp [evalExpr, hl, hr, binaryEval, variantEq, hop]

/-- Witness for claim C5: `1 + 2` evaluates to the Number it names, and
`1 / 0` evaluates to a Number (the model\x27s infinity), not an error. -/
theorem binary_number_string_ops_witness :
    evalExpr (numLit 1) = .ok (.number (F64.finite 1)) ∧
    evalExpr (Expr.binary (numLit 1) plusTok (numLit 2)) =
      .ok (.number (F64.add (F64.finite 1) (F64.finite 2))) ∧
    evalExpr (Expr.binary (numLit 1)
        { type := TokenType.slash, lexeme := "/", literal := none, line := 1 } (numLit 0)) =
      .ok (.number (F64.div (F64.finite 1) (F64.finite 0))) ∧
    F64.div (F64.finite 1) (F64.finite 0) = F64.inf :=
  ⟨rfl,
   (binary_number_string_ops.1 (numLit 1) (numLit 2) plusTok
     (F64.finite 1) (F64.finite 2) rfl rfl).1 rfl,
   (binary_number_string_ops.1 (numLit 1) (numLit 0)
     { type := TokenType.slash, lexeme := "/", literal := none, line := 1 }
     (F64.finite 1) (F64.finite 0) rfl rfl).2.2.2.1 rfl,
   by rw [binary_number_string_ops.2.1 1]; norm_num⟩

/-- Claim C6: same-variant operands whose operator the evaluator does not
define — any operator other than `+` on two Strings, and every operator on
two Booleans or two Nils, `==` and `!=` included — fail with the
invalid-operator `RuntimeError` carrying the operator token. -/
theorem binary_invalid_operator_eval :
    (∀ (l r : Expr) (op : Token) (a b : String),
      evalExpr l = .ok (.string a) → evalExpr r = .ok (.string b) →
      op.type ≠ TokenType.plus →
      evalExpr (Expr.binary l op r) =
        .error { token := op, message := "Invalid binary expression operator." }) ∧
    (∀ (l r : Expr) (op : Token) (a b : Bool),
      evalExpr l = .ok (.boolean a) → evalExpr r = .ok (.boolean b) →
      evalExpr (Expr.binary l op r) =
        .error { token := op, message := "Invalid binary expression operator." }) ∧
    (∀ (l r : Expr) (op : Token),
      evalExpr l = .ok Value.nil → evalExpr r = .ok Value.nil →
      evalExpr (Expr.binary l op r) =
        .error { token := op, message := "Invalid binary expression operator." }) := by
  refine ⟨?_, ?_, ?_⟩
  · intro l r op a b hl hr hop
    cases h : op.type <;>
      simp_all [evalExpr, hl, hr, binaryEval, variantEq]
  · intro l r op a b hl hr
    simp [evalExpr, hl, hr, binaryEval, variantEq]
  · intro l r op hl hr
    simp [evalExpr, hl, hr, binaryEval, variantEq]

/-- Witness for claim C6: `"a" * "b"` and `true == false` both fail with
the invalid-operator error at their operator token. -/
theorem binary_invalid_operator_eval_witness :
    starTok.type ≠ TokenType.plus ∧
    evalExpr (Expr.binary (strLit "a") starTok (strLit "b")) =
      .error { token := starTok, message := "Invalid binary expression operator." } ∧
    evalExpr (Expr.binary (boolLit true) eqeqTok (boolLit false)) =
      .error { token := eqeqTok, message := "Invalid binary expression operator." } :=
  ⟨by decide,
   binary_invalid_operator_eval.1 (strLit "a") (strLit "b") starTok "a" "b" rfl rfl
     (by decide),
   binary_invalid_operator_eval.2.1 (boolLit true) (boolLit false) eqeqTok true false
     rfl rfl⟩

/-- Claim C7: a `Ternary` evaluation first evaluates only the condition: a
condition error propagates, a non-Boolean condition value fails with the
`RuntimeError` on the synthesized `?` token, and a Boolean condition makes
the result exactly the evaluation of the selected branch — so the untaken
branch never contributes, as witnessed by the result being independent of
it. -/
theorem ternary_eval_selects_branch :
    (∀ (c t e : Expr) (err : RuntimeError),
      evalExpr c = .error err → evalExpr (Expr.ternary c t e) = .error err) ∧
    (∀ (c t e : Expr), evalExpr c = .ok (.boolean true) →
      evalExpr (Expr.ternary c t e) = evalExpr t) ∧
    (∀ (c t e : Expr), evalExpr c = .ok (.boolean false) →
      evalExpr (Expr.ternary c t e) = evalExpr e) ∧
    (∀ (c t e : Expr) (v : Value), evalExpr c = .ok v → (∀ b, v ≠ .boolean b) →
      evalExpr (Expr.ternary c t e) =
        .error { token := questionToken,
                 message :=
                   "We shouldn\x27t be here... ternary condition didn\x27t returned a boolean." }) ∧
    (∀ (c t e e2 : Expr), evalExpr c = .ok (.boolean true) →
      evalExpr (Expr.ternary c t e) = evalExpr (Expr.ternary c t e2)) ∧
    (∀ (c t t2 e : Expr), evalExpr c = .ok (.boolean false) →
      evalExpr (Expr.ternary c t e) = evalExpr (Expr.ternary c t2 e)) := by
  refine ⟨?_, ?_, ?_, ?_, ?_, ?_⟩
  · intro c t e err h; simp [evalExpr, h]
  · intro c t e h; simp [evalExpr, h]
  · intro c t e h; simp [evalExpr, h]
  · intro c t e v h hv
    cases v <;> simp_all [evalExpr, h]
  · intro c t e e2 h; simp [evalExpr, h]
  · intro c t t2 e h; simp [evalExpr, h]

/-- Witness for claim C7: a true condition selects the then branch even
though the else branch would fail (`- "x"` is a runtime error), and a
Number condition fails with the synthesized-token error. -/
theorem ternary_eval_selects_branch_witness :
    evalExpr (boolLit true) = .ok (.boolean true) ∧
    evalExpr (Expr.ternary (boolLit true) (numLit 2)
        (Expr.unary { type := TokenType.minus, lexeme := "-", literal := none, line := 1 }
          (strLit "x"))) =
      evalExpr (numLit 2) ∧
    evalExpr (Expr.ternary (numLit 0) (numLit 1) (numLit 2)) =
      .error { token := questionToken,
               message :=
                 "We shouldn\x27t be here... ternary condition didn\x27t returned a boolean." } :=
  ⟨rfl,
   ternary_eval_selects_branch.2.1 (boolLit true) (numLit 2)
     (Expr.unary { type := TokenType.minus, lexeme := "-", literal := none, line := 1 }
       (strLit "x")) rfl,
   ternary_eval_selects_branch.2.2.2.1 (numLit 0) (numLit 1) (numLit 2)
     (.number (F64.finite 0)) rfl (by intro b h; exact Value.noConfusion h)⟩

/-- Claim C8, counterexample: for the end-of-input token with message
`expect expression`, `errors::error` emits two lines, not one, and the line
it emits for the `at the end` place is
`[line 1] Error:  at the end: expect expression` — not the claimed
`[line 1] Error at the end: expect expression` (the code's format string
puts a colon directly after `Error`). -/
theorem diagnostic_line_counterexample :
    (errorLines eofTok "expect expression").length ≠ 1 ∧
    reportLine { line := 1, message := "expect expression", place := " at the end" } ≠
      specFormatLine 1 " at the end" "expect expression" ∧
    errorLines eofTok "expect expression" ≠
      [specFormatLine 1 " at the end" "expect expression"] := by
  decide

/-- Claim C8, amended: every diagnostic line has the exact form
`[line <N>] Error: <place>: <message>` with `<place>` empty, ` at the end`,
or ` at \x27<lexeme>\x27`; `report` emits exactly one such line per call,
and the token-level `error` routine emits one line for an ordinary token
but two lines for the end-of-input token (the ` at the end` line followed
by the ` at \x27\x27` line, since the end-marker branch does not return). -/
theorem diagnostic_lines_amended (t : Token) (message : String) (e : Error) :
    reportLine e = amendedFormatLine e.line e.place e.message ∧
    errorLines t message =
      (if t.type = TokenType.eof then
        [amendedFormatLine t.line " at the end" message]
      else []) ++
      [amendedFormatLine t.line (" at \x27" ++ t.lexeme ++ "\x27") message] := by
  constructor
  · rfl
  · by_cases h : t.type = TokenType.eof <;>
      simp [errorLines, errorReports, reportLine, amendedFormatLine, h]

/-- Claim C9: `is_truthy` is false exactly on `Nil` and `Boolean(false)` —
in particular `Number(0)` and the empty String are truthy — and unary `!`
on any successfully evaluated operand yields the Boolean negation of the
operand value\x27s truthiness. -/
theorem truthiness_and_bang :
    (∀ v : Value, isTruthy v = false ↔ v = Value.nil ∨ v = Value.boolean false) ∧
    isTruthy (Value.number (F64.finite 0)) = true ∧
    isTruthy (Value.string "") = true ∧
    (∀ (op : Token) (r : Expr) (v : Value), op.type = TokenType.bang →
      evalExpr r = .ok v →
      evalExpr (Expr.unary op r) = .ok (.boolean (!(isTruthy v)))) := by
  refine ⟨?_, rfl, rfl, ?_⟩
  · intro v
    cases v with
    | nil => simp [isTruthy]
    | boolean b => cases b <;> simp [isTruthy]
    | number n => simp [isTruthy]
    | string s => simp [isTruthy]
  · intro op r v hop hr
    simp [evalExpr, hr, unaryEval, hop]

/-- Witness for claim C9: `!0` evaluates to `Boolean(false)` because
`Number(0)` is truthy. -/
theorem truthiness_and_bang_witness :
    bangTok.type = TokenType.bang ∧
    evalExpr (Expr.unary bangTok (numLit 0)) =
      .ok (.boolean (!(isTruthy (Value.number (F64.finite 0))))) :=
  ⟨rfl, truthiness_and_bang.2.2.2 bangTok (numLit 0) (.number (F64.finite 0)) rfl rfl⟩

/-- Claim C10: evaluating `Grouping(e)` returns exactly the evaluation of
`e` for every expression `e`; and the parse of `(-1)` is a tree that
pretty-prints to `(group (- 1))` and evaluates to `Number(-1.0)`. -/
theorem grouping_transparent :
    (∀ e : Expr, evalExpr (Expr.grouping e) = evalExpr e) ∧
    (∃ e : Expr, parseTokens (tokensOf "(-1)") = (ParseResult.tree e, []) ∧
      prettyPrint e = "(group (- 1))" ∧
      evalExpr e = .ok (.number (F64.finite (-1)))) := by
  refine ⟨fun e => by simp [evalExpr], ?_⟩
  refine ⟨Expr.grouping (Expr.unary
    { type := TokenType.minus, lexeme := "-", literal := none, line := 1 } (numLit 1)),
    rfl, rfl, ?_⟩
  show Except.ok (Value.number (F64.neg (F64.finite 1))) = _
  norm_num [F64.neg]

end TreeWalker
